import Mathlib

/-!
Verification of the spacepy sandbox date-to-number converter
(src/spacepy/sandbox/date2num.c).

The C file defines a single-element converter date2num and an unfinished
batch driver date2num_common.  The relevant C macros are

  HOURS_PER_DAY     24
  MINUTES_PER_DAY   60*HOURS_PER_DAY
  SECONDS_PER_DAY   60*MINUTES_PER_DAY
  MUSECONDS_PER_DAY 1e6*SECONDS_PER_DAY

None of the derived macros is parenthesised, so after textual expansion the
line "(double)minute/MINUTES_PER_DAY" parses as ((minute/60)*24), the line
"(double)second/SECONDS_PER_DAY" parses as (((second/60)*60)*24), and the
line "(double)microsecond/MUSECONDS_PER_DAY" parses as
((((microsecond/1e6)*60)*60)*24).  The embedding below reproduces exactly
these parse trees.  Double-precision arithmetic is modelled by exact
rational arithmetic; every concrete value appearing in the theorems below
(halves, multiples of 1/60 and so on at small magnitudes) is exactly
representable in binary64, so the rational model is faithful for them.

The ordinal calculator ymd_to_ord appears in the C file only as a
commented-out reference to CPython datetimemodule.c, so its body is
modelled from the spec (section 4.1).
-/

/-- Modelled from the spec: proleptic Gregorian leap-year rule, a year is a
leap year iff divisible by 4, and not by 100 unless also by 400.  The body
of the rule is missing from the C source (ymd_to_ord is commented out). -/
def isLeap (y : ℕ) : Prop :=
  y % 4 = 0 ∧ (y % 100 ≠ 0 ∨ y % 400 = 0)

instance decIsLeap (y : ℕ) : Decidable (isLeap y) := by
  unfold isLeap
  exact inferInstance

/-- Modelled from the spec: month lengths 31,28or29,31,30,31,30,31,31,30,31,
30,31 with February 29 days iff the year is a leap year; 0 for a month index
outside 1..12 (matching the sentinel slot 0 of the CPython table the C file
cites). -/
def days_in_month (y m : ℕ) : ℕ :=
  match m with
  | 1 => 31
  | 2 => if isLeap y then 29 else 28
  | 3 => 31
  | 4 => 30
  | 5 => 31
  | 6 => 30
  | 7 => 31
  | 8 => 31
  | 9 => 30
  | 10 => 31
  | 11 => 30
  | 12 => 31
  | _ => 0

/-- Modelled from the spec: number of days in months 1..m-1 of year y, the
running sum of days_in_month.  The slot for month 0 contributes 0. -/
def days_before_month (y m : ℕ) : ℕ :=
  match m with
  | 0 => 0
  | Nat.succ m' => days_before_month y m' + days_in_month y m'

/-- Modelled from the spec: total days in all years strictly before y,
365*(y-1) + floor((y-1)/4) - floor((y-1)/100) + floor((y-1)/400).  All
quantities are nonnegative and the subtrahend never exceeds what precedes
it, so natural-number arithmetic coincides with the C int arithmetic. -/
def days_before_year (y : ℕ) : ℕ :=
  365 * (y - 1) + (y - 1) / 4 - (y - 1) / 100 + (y - 1) / 400

/-- Modelled from the spec and the comment in the C source: year, month,
day to ordinal, considering 01-Jan-0001 as day 1. -/
def ymd_to_ord (year month day : ℕ) : ℕ :=
  days_before_year year + days_before_month year month + day

/-- The seven integer calendar fields a PyDateTime object carries. -/
structure DateTime where
  year : ℕ
  month : ℕ
  day : ℕ
  hour : ℕ
  minute : ℕ
  second : ℕ
  microsecond : ℕ

/-- A Python object as seen by date2num: the dynamic type check
PyDate_Check is modelled by the flag isDate, and the calendar fields are
read only when that check passes. -/
structure PyObj where
  isDate : Bool
  dt : DateTime

/-- The single-element converter date2num from the C source.  If the input
is not a date object it returns the sentinel -999.  Otherwise it takes the
ordinal of the date and adds the four quotient terms exactly as the C
preprocessor expands them: hour/24, (minute/60)*24, ((second/60)*60)*24 and
(((microsecond/1000000)*60)*60)*24, all in floating-point (here rational)
arithmetic. -/
def date2num (inval : PyObj) : ℚ :=
  if !inval.isDate then -999
  else
    (ymd_to_ord inval.dt.year inval.dt.month inval.dt.day : ℚ)
      + ((inval.dt.hour : ℚ) / 24
        + (inval.dt.minute : ℚ) / 60 * 24
        + (inval.dt.second : ℚ) / 60 * 60 * 24
        + (inval.dt.microsecond : ℚ) / 1000000 * 60 * 60 * 24)

/-- The batch driver date2num_common.  The C source contains the loop
for i in 0..len: outval i = date2num (inval i), in index order; the output
allocation and the input length are unwritten TODO items there, so the
container plumbing is modelled from the spec (one output per input element,
same length and order) while the per-element action is the loop as
written. -/
def date2num_common (inval : List PyObj) : List ℚ :=
  inval.map date2num

/-- Definition following the words of the spec (section 4.2): the intended
fractional contribution hour/24 + minute/1440 + second/86400 +
microsecond/86400000000 added to the ordinal. -/
def to_day_number_spec (ts : DateTime) : ℚ :=
  (ymd_to_ord ts.year ts.month ts.day : ℚ)
    + ((ts.hour : ℚ) / 24
      + (ts.minute : ℚ) / 1440
      + (ts.second : ℚ) / 86400
      + (ts.microsecond : ℚ) / 86400000000)

/-- Definition following the words of claim C3: the month-length table
31,28or29,31,30,31,30,31,31,30,31,30,31. -/
def month_length_claim (y m : ℕ) : ℕ :=
  match m with
  | 1 => 31
  | 2 => if isLeap y then 29 else 28
  | 3 => 31
  | 4 => 30
  | 5 => 31
  | 6 => 30
  | 7 => 31
  | 8 => 31
  | 9 => 30
  | 10 => 31
  | 11 => 30
  | 12 => 31
  | _ => 0

/-- Modelled from the spec: the calendar successor of a valid date, used to
state the day-by-day monotonicity claim.  The next day in the same month if
one remains, else the first day of the next month, else January 1 of the
next year. -/
def next_ymd (y m d : ℕ) : ℕ × ℕ × ℕ :=
  if d < days_in_month y m then (y, m, d + 1)
  else if m < 12 then (y, m + 1, 1)
  else (y + 1, 1, 1)

theorem month_length_claim_eq_days_in_month (y m : ℕ) :
    month_length_claim y m = days_in_month y m := rfl

theorem days_before_month_eq_sum (y m : ℕ) :
    days_before_month y m = ∑ k in Finset.Ico 1 m, days_in_month y k := by
  induction m with
  | zero => simp [days_before_month]
  | succ n ih =>
    rw [days_before_month, ih]
    rcases Nat.eq_zero_or_pos n with h | h
    · subst h; simp [days_in_month]
    · rw [Finset.sum_Ico_succ_top h]

set_option maxHeartbeats 2000000 in
theorem days_before_year_succ (y : ℕ) (hy : 1 ≤ y) :
    days_before_year (y + 1) =
      days_before_year y + (if isLeap y then 366 else 365) := by
  unfold days_before_year
  by_cases h : isLeap y
  · rw [if_pos h]
    obtain ⟨h4, h100400⟩ := h
    rcases h100400 with h100 | h400
    · omega
    · omega
  · rw [if_neg h]
    unfold isLeap at h
    by_cases h4 : y % 4 = 0
    · have h2 : ¬(y % 100 ≠ 0 ∨ y % 400 = 0) := fun hq => h ⟨h4, hq⟩
      push_neg at h2
      omega
    · omega

theorem days_before_month_unfold (y m : ℕ) :
    days_before_month y (m + 1) = days_before_month y m + days_in_month y m := rfl

theorem days_before_month_zero (y : ℕ) : days_before_month y 0 = 0 := rfl

theorem days_in_month_zero (y : ℕ) : days_in_month y 0 = 0 := rfl

theorem days_before_month_thirteen (y : ℕ) :
    days_before_month y 13 = if isLeap y then 366 else 365 := by
  by_cases h : isLeap y <;>
    simp only [days_before_month_unfold] <;>
    simp [days_before_month, days_in_month, h]

/-- C3: for every year y at least 1, month m in 1..12 and day d valid for
(y,m) under the proleptic Gregorian leap-year rule, the ordinal calculator
returns days_before_year y plus the sum of the month lengths of months
1..m-1 plus d, where days_before_year y is 365*(y-1) + floor((y-1)/4) -
floor((y-1)/100) + floor((y-1)/400), all in exact integer arithmetic. -/
theorem ymd_to_ord_closed_form (y m d : ℕ) (hy : 1 ≤ y) (hm1 : 1 ≤ m)
    (hm2 : m ≤ 12) (hd1 : 1 ≤ d) (hd2 : d ≤ days_in_month y m) :
    ymd_to_ord y m d =
      365 * (y - 1) + (y - 1) / 4 - (y - 1) / 100 + (y - 1) / 400
        + (∑ k in Finset.Ico 1 m, month_length_claim y k) + d := by
  unfold ymd_to_ord days_before_year
  rw [days_before_month_eq_sum]
  simp only [month_length_claim_eq_days_in_month]

theorem ymd_to_ord_closed_form_witness :
    ymd_to_ord 2000 3 1 =
      365 * (2000 - 1) + (2000 - 1) / 4 - (2000 - 1) / 100 + (2000 - 1) / 400
        + (∑ k in Finset.Ico 1 3, month_length_claim 2000 k) + 1 :=
  ymd_to_ord_closed_form 2000 3 1 (by decide) (by decide) (by decide)
    (by decide) (by decide)

/-- C6: anchor and leap-year identities of the ordinal calculator: day one
is 0001-01-01, February 2000 has 29 days, and February 1900 has 28 days. -/
theorem ymd_to_ord_anchor_and_leap :
    ymd_to_ord 1 1 1 = 1 ∧
    ymd_to_ord 2000 3 1 - ymd_to_ord 2000 2 1 = 29 ∧
    ymd_to_ord 1900 3 1 - ymd_to_ord 1900 2 1 = 28 := by
  decide

/-- C7: for every valid date the ordinal of the calendar successor is the
ordinal plus one, and in particular the ordinal is strictly increasing in
the day while d+1 stays valid for the month; dates advance day by day with
no gaps or repeats. -/
theorem ymd_to_ord_succ_date (y m d : ℕ) (hy : 1 ≤ y) (hm1 : 1 ≤ m)
    (hm2 : m ≤ 12) (hd1 : 1 ≤ d) (hd2 : d ≤ days_in_month y m) :
    ymd_to_ord (next_ymd y m d).1 (next_ymd y m d).2.1 (next_ymd y m d).2.2
        = ymd_to_ord y m d + 1
      ∧ (d + 1 ≤ days_in_month y m →
          ymd_to_ord y m d < ymd_to_ord y m (d + 1)) := by
  constructor
  · unfold next_ymd
    by_cases h1 : d < days_in_month y m
    · rw [if_pos h1]
      show ymd_to_ord y m (d + 1) = ymd_to_ord y m d + 1
      unfold ymd_to_ord
      omega
    · rw [if_neg h1]
      by_cases h2 : m < 12
      · rw [if_pos h2]
        show ymd_to_ord y (m + 1) 1 = ymd_to_ord y m d + 1
        unfold ymd_to_ord
        have e := days_before_month_unfold y m
        omega
      · rw [if_neg h2]
        have hm : m = 12 := by omega
        subst hm
        show ymd_to_ord (y + 1) 1 1 = ymd_to_ord y 12 d + 1
        unfold ymd_to_ord
        have e1 := days_before_year_succ y hy
        have e2 := days_before_month_thirteen y
        have e3 : days_before_month y 13 = days_before_month y 12 + 31 := rfl
        have e4 : days_before_month (y + 1) 1 = 0 := rfl
        have e5 : days_in_month y 12 = 31 := rfl
        by_cases hL : isLeap y
        · rw [if_pos hL] at e1 e2
          omega
        · rw [if_neg hL] at e1 e2
          omega
  · intro h
    unfold ymd_to_ord
    omega

theorem ymd_to_ord_succ_date_witness :
    ymd_to_ord (next_ymd 2000 2 29).1 (next_ymd 2000 2 29).2.1
        (next_ymd 2000 2 29).2.2
      = ymd_to_ord 2000 2 29 + 1 :=
  (ymd_to_ord_succ_date 2000 2 29 (by decide) (by decide) (by decide)
    (by decide) (by decide)).1

/-- C2: because the C macros expand without parentheses, the value actually
computed for a date object is the ordinal plus hour/24 + (minute/60)*24 +
((second/60)*60)*24 + (((microsecond/1000000)*60)*60)*24; in particular any
timestamp whose second field is at least 1 receives an added fractional
contribution of at least 1. -/
theorem date2num_macro_expansion (o : PyObj) (h : o.isDate = true) :
    date2num o =
        (ymd_to_ord o.dt.year o.dt.month o.dt.day : ℚ)
          + ((o.dt.hour : ℚ) / 24
            + ((o.dt.minute : ℚ) / 60) * 24
            + (((o.dt.second : ℚ) / 60) * 60) * 24
            + ((((o.dt.microsecond : ℚ) / 1000000) * 60) * 60) * 24)
      ∧ (1 ≤ o.dt.second →
          1 ≤ date2num o - (ymd_to_ord o.dt.year o.dt.month o.dt.day : ℚ)) := by
  constructor
  · simp [date2num, h]
  · intro hs
    have e : date2num o - (ymd_to_ord o.dt.year o.dt.month o.dt.day : ℚ)
        = (o.dt.hour : ℚ) / 24
          + (o.dt.minute : ℚ) / 60 * 24
          + (o.dt.second : ℚ) / 60 * 60 * 24
          + (o.dt.microsecond : ℚ) / 1000000 * 60 * 60 * 24 := by
      simp [date2num, h]
    rw [e]
    have h1 : (0 : ℚ) ≤ (o.dt.hour : ℚ) / 24 := by positivity
    have h2 : (0 : ℚ) ≤ (o.dt.minute : ℚ) / 60 * 24 := by positivity
    have h4 : (0 : ℚ) ≤ (o.dt.microsecond : ℚ) / 1000000 * 60 * 60 * 24 := by
      positivity
    have h3 : (24 : ℚ) ≤ (o.dt.second : ℚ) / 60 * 60 * 24 := by
      have hs1 : (1 : ℚ) ≤ (o.dt.second : ℚ) := by exact_mod_cast hs
      rw [div_mul_cancel₀ _ (by norm_num : (60 : ℚ) ≠ 0)]
      linarith
    linarith

theorem date2num_macro_expansion_witness :
    1 ≤ date2num ⟨true, ⟨1, 1, 1, 0, 0, 1, 0⟩⟩ - (ymd_to_ord 1 1 1 : ℚ) :=
  (date2num_macro_expansion ⟨true, ⟨1, 1, 1, 0, 0, 1, 0⟩⟩ rfl).2 (by decide)

/-- C1 (refuting the claimed fraction formula): at the timestamp
0001-01-01 00:01:00.000000 the code returns 1 + 2/5 because the minute term
parses as (minute/60)*24, while the fraction formula of the spec gives
1 + 1/1440; the two converters disagree at this input. -/
theorem date2num_minute_divergence :
    date2num ⟨true, ⟨1, 1, 1, 0, 1, 0, 0⟩⟩ = 7 / 5 ∧
    to_day_number_spec ⟨1, 1, 1, 0, 1, 0, 0⟩ = 1441 / 1440 ∧
    date2num ⟨true, ⟨1, 1, 1, 0, 1, 0, 0⟩⟩ ≠
      to_day_number_spec ⟨1, 1, 1, 0, 1, 0, 0⟩ := by
  refine ⟨?_, ?_, ?_⟩ <;>
    norm_num [date2num, to_day_number_spec, ymd_to_ord, days_before_year,
      days_before_month_unfold, days_before_month_zero, days_in_month]

/-- C8 (refuting the day-fraction invariant): at the timestamp
0001-01-01 00:00:01.000000 the code returns 25, whose integer part 25
differs from the ordinal 1 of the date, so the invariant that the integer
part equals the ordinal day number fails. -/
theorem date2num_integer_part_divergence :
    date2num ⟨true, ⟨1, 1, 1, 0, 0, 1, 0⟩⟩ = 25 ∧
    ⌊date2num ⟨true, ⟨1, 1, 1, 0, 0, 1, 0⟩⟩⌋ = 25 ∧
    ymd_to_ord 1 1 1 = 1 := by
  have e : date2num ⟨true, ⟨1, 1, 1, 0, 0, 1, 0⟩⟩ = 25 := by
    norm_num [date2num, ymd_to_ord, days_before_year,
      days_before_month_unfold, days_before_month_zero, days_in_month]
  refine ⟨e, ?_, by decide⟩
  rw [e, show (25 : ℚ) = ((25 : ℤ) : ℚ) by norm_num, Int.floor_intCast]

/-- C9: for any date fields, a timestamp at 12:00:00.000000 has day-number
fractional part exactly one half, and a timestamp at 00:00:00.000000 has
fractional part exactly zero; the macro defect does not disturb these two
cases because the minute, second and microsecond fields are all zero. -/
theorem date2num_noon_midnight_fraction (y m d : ℕ) :
    Int.fract (date2num ⟨true, ⟨y, m, d, 12, 0, 0, 0⟩⟩) = 1 / 2 ∧
    Int.fract (date2num ⟨true, ⟨y, m, d, 0, 0, 0, 0⟩⟩) = 0 := by
  constructor
  · have e : date2num ⟨true, ⟨y, m, d, 12, 0, 0, 0⟩⟩
        = ((ymd_to_ord y m d : ℤ) : ℚ) + 1 / 2 := by
      norm_num [date2num]
    rw [e, add_comm, Int.fract_add_int]
    norm_num [Int.fract]
  · have e : date2num ⟨true, ⟨y, m, d, 0, 0, 0, 0⟩⟩
        = ((ymd_to_ord y m d : ℤ) : ℚ) := by
      norm_num [date2num]
    rw [e, Int.fract_intCast]

/-- C10: when the PyDate type check fails, date2num returns the sentinel
value -999 instead of signaling an error, and the result does not depend on
any of the calendar fields of the input. -/
theorem date2num_non_date_sentinel (o : PyObj) (h : o.isDate = false) :
    date2num o = -999 ∧
    ∀ o' : PyObj, o'.isDate = false → date2num o = date2num o' := by
  constructor
  · simp [date2num, h]
  · intro o' h'
    simp [date2num, h, h']

theorem date2num_non_date_sentinel_witness :
    date2num ⟨false, ⟨2024, 5, 17, 1, 2, 3, 4⟩⟩ = -999 :=
  (date2num_non_date_sentinel ⟨false, ⟨2024, 5, 17, 1, 2, 3, 4⟩⟩ rfl).1

/-- C4: on a sequence of N date objects the batch driver produces exactly N
values, element i being the single-element conversion of input element i in
the same order, and the empty input yields the empty output rather than an
error. -/
theorem date2num_common_maps (l : List DateTime) :
    (date2num_common (l.map fun dt => ⟨true, dt⟩)).length = l.length ∧
    (∀ i : ℕ, (date2num_common (l.map fun dt => ⟨true, dt⟩))[i]? =
      (l[i]?).map fun dt => date2num ⟨true, dt⟩) ∧
    date2num_common [] = [] := by
  refine ⟨by simp [date2num_common], fun i => ?_, rfl⟩
  simp only [date2num_common, List.getElem?_map]
  cases l[i]? <;> rfl

/-- C5 (refuting atomic failure): on a batch whose middle element is not a
date object the code does not fail and does not withhold output; it writes
the sentinel -999 at the offending index and converts the other elements,
returning a full-length result. -/
theorem date2num_common_sentinel_no_error :
    date2num_common
        [⟨true, ⟨2000, 1, 1, 0, 0, 0, 0⟩⟩,
         ⟨false, ⟨0, 0, 0, 0, 0, 0, 0⟩⟩,
         ⟨true, ⟨2000, 1, 2, 12, 0, 0, 0⟩⟩]
      = [730120, -999, 730121 + 1 / 2] := by
  have e1 : ymd_to_ord 2000 1 1 = 730120 := by decide
  have e2 : ymd_to_ord 2000 1 2 = 730121 := by decide
  norm_num [date2num_common, date2num, e1, e2]
